import Mathlib

/-!
Verification of the OCI builder driver (`builder/oci/driver_oci.go`).

The development shallowly embeds the driver's three pieces of real logic —
the shared retry policy, the generic poll-until-state loop, and the
capability-schema reconciliation — together with a static table of the
driver's remote call sites.  Machine integers are modelled as `Int` with
explicit wrapping at 64 bits where Go's `int64` arithmetic can overflow;
the remote service is modelled as an explicit state acted on by the calls
the driver makes.
-/

namespace PackerOCI

/-! ### Retry policy (`retryPolicy` in driver_oci.go, lines 30-49) -/

/-- An error value observed by `ShouldRetryOperation`.  `service c` models a
value satisfying `errors.As(err, &common.ServiceError)` with
`GetHTTPStatusCode() = c`; `nonService` models any other non-nil error
(for which `errors.As` reports false). -/
inductive OCIErr
| service (status : Nat)
| nonService
deriving DecidableEq, Repr

/-- Model of `retryPolicy.ShouldRetryOperation` (lines 32-41): retry exactly when the
error is a service error whose HTTP status code is 429
(`http.StatusTooManyRequests`), 500 (`http.StatusInternalServerError`) or
503 (`http.StatusServiceUnavailable`); in every other case (other status
codes, non-service errors, nil error) return false. -/
def ShouldRetryOperation : Option OCIErr → Bool
| some (OCIErr.service c) => c == 429 || c == 500 || c == 503
| _ => false

/-- Wrap an integer into the signed 64-bit range, modelling Go's `int64`
arithmetic, which wraps on overflow. -/
def wrap64 (z : Int) : Int :=
  (z + 2 ^ 63) % 2 ^ 64 - 2 ^ 63

/-- Model of `retryPolicy.NextDuration` (lines 42-48), in nanoseconds.

The Go code computes
`d := time.Duration(math.Pow(2, float64(attempt))) * time.Second` and
`j := time.Duration(rand.Float64()*2000) * time.Millisecond`, returning
`d + j`.  For `attempt ≤ 62`, `math.Pow(2, float64(attempt))` is exactly
`2 ^ attempt` in float64 and the conversion to `time.Duration` (an int64
nanosecond count) is in range, so the float step is modelled exactly by
`(2 : Int) ^ attempt`; the subsequent multiplication by `time.Second`
(10^9) and the final addition are int64 operations that wrap, modelled by
`wrap64`.  `jitterMs` models `time.Duration(rand.Float64()*2000)`, the
truncation of a uniform draw from [0, 2000): an integer in [0, 1999]. -/
def NextDuration (attempt : Nat) (jitterMs : Nat) : Int :=
  let d := wrap64 ((2 : Int) ^ attempt * 1000000000)
  let j := (jitterMs : Int) * 1000000
  wrap64 (d + j)

/-! ### Remote call sites of the driver

Each constructor names one remote call issued by `driverOCI`, in source
order.  `carriesRetryPolicy` records whether the request struct at that
call site sets `RequestMetadata: requestMetadata` (the shared retry
policy); `contextArg` records which `context.Context` the call receives. -/

inductive CallSite
| listImages                  -- line 121, inside CreateInstance
| launchInstance              -- line 194, inside CreateInstance
| createImage                 -- line 208, inside CreateImage
| listImageSchemasInitial     -- line 230, inside UpdateImageCapabilitySchema
| listGlobalSchemas           -- line 240, inside UpdateImageCapabilitySchema
| getGlobalSchemaVersion      -- line 251, inside UpdateImageCapabilitySchema
| createImageSchema           -- line 289, inside UpdateImageCapabilitySchema
| listImageSchemasAfterCreate -- line 295, inside UpdateImageCapabilitySchema
| updateImageSchema           -- line 313, inside UpdateImageCapabilitySchema
| deleteImage                 -- line 329, inside DeleteImage
| listVnicAttachments         -- line 338, inside GetInstanceIP
| getVnic                     -- line 351, inside GetInstanceIP
| getWindowsCredentials       -- line 371, inside GetInstanceInitialCredentials
| terminateInstance           -- line 384, inside TerminateInstance
| getImage                    -- line 396, inside WaitForImageCreation
| getInstance                 -- line 418, inside WaitForInstanceState
deriving DecidableEq, Repr

/-- Whether the request at this call site carries
`RequestMetadata: requestMetadata` (the shared retry policy), read off the
request literal at each call site of the source. -/
def carriesRetryPolicy : CallSite → Bool
| CallSite.listImages => true
| CallSite.launchInstance => true
| CallSite.createImage => true
| CallSite.listImageSchemasInitial => false
| CallSite.listGlobalSchemas => false
| CallSite.getGlobalSchemaVersion => false
| CallSite.createImageSchema => false
| CallSite.listImageSchemasAfterCreate => false
| CallSite.updateImageSchema => false
| CallSite.deleteImage => true
| CallSite.listVnicAttachments => true
| CallSite.getVnic => true
| CallSite.getWindowsCredentials => true
| CallSite.terminateInstance => true
| CallSite.getImage => true
| CallSite.getInstance => true

/-- Which context expression each call site passes as its first argument. -/
inductive CtxArg
| caller      -- the ctx the exported method received
| background  -- context.Background()
| todo        -- context.TODO()
deriving DecidableEq, Repr

/-- The context argument at each call site, read off the source. -/
def contextArg : CallSite → CtxArg
| CallSite.listImages => CtxArg.caller
| CallSite.launchInstance => CtxArg.todo
| CallSite.createImage => CtxArg.caller
| CallSite.listImageSchemasInitial => CtxArg.background
| CallSite.listGlobalSchemas => CtxArg.background
| CallSite.getGlobalSchemaVersion => CtxArg.background
| CallSite.createImageSchema => CtxArg.background
| CallSite.listImageSchemasAfterCreate => CtxArg.background
| CallSite.updateImageSchema => CtxArg.caller
| CallSite.deleteImage => CtxArg.caller
| CallSite.listVnicAttachments => CtxArg.caller
| CallSite.getVnic => CtxArg.caller
| CallSite.getWindowsCredentials => CtxArg.caller
| CallSite.terminateInstance => CtxArg.caller
| CallSite.getImage => CtxArg.caller
| CallSite.getInstance => CtxArg.caller

/-- The capability-schema list/get/create/update call sites of
`UpdateImageCapabilitySchema`. -/
def isCapabilitySchemaCall : CallSite → Bool
| CallSite.listImageSchemasInitial => true
| CallSite.listGlobalSchemas => true
| CallSite.getGlobalSchemaVersion => true
| CallSite.createImageSchema => true
| CallSite.listImageSchemasAfterCreate => true
| CallSite.updateImageSchema => true
| _ => false

/-- The sleep in `waitForResourceToReachState` (line 446) is a plain
`time.Sleep(waitDuration)`: it takes no context and cannot be interrupted
by cancellation. -/
def pollSleepIsContextAware : Bool := false

/-! ### Poll-until-state engine (`waitForResourceToReachState`, lines 438-454) -/

/-- Model of `stringSliceContains` (lines 458-465). -/
def stringSliceContains : List String → String → Bool
| [], _ => false
| e :: rest, value => if e = value then true else stringSliceContains rest value

/-- Outcome of one poll run. `unexpected` carries the observed state, the
waiting-state set and the terminal state, mirroring the format verb
arguments of the error at line 451; `retriesExceeded` mirrors line 453. -/
inductive PollResult
| success
| fetchError (e : String)
| unexpected (observed : String) (waiting : List String) (terminal : String)
| retriesExceeded (maxRetries : Nat) (terminal : String)
deriving DecidableEq, Repr

/-- The loop body of `waitForResourceToReachState`.  The impure
`getResourceState(id)` closure is modelled as a pure function of the
iteration index `i` (the value the i-th call returns); `sleeps` counts the
`time.Sleep(waitDuration)` calls performed so far, and is returned with the
result.  `fuel` bounds the recursion (Go's loop with `maxRetries == 0` is
unbounded); `none` means the fuel ran out before the loop decided, which
never happens when `maxRetries > 0` and `fuel ≥ maxRetries`. -/
def waitLoop (fetch : Nat → Except String String) (waitStates : List String)
    (terminalState : String) (maxRetries : Nat) :
    Nat → Nat → Nat → Option (PollResult × Nat)
| _, _, 0 => none
| i, sleeps, fuel + 1 =>
  if maxRetries = 0 ∨ i < maxRetries then
    match fetch i with
    | Except.error e => some (PollResult.fetchError e, sleeps)
    | Except.ok state =>
      if stringSliceContains waitStates state then
        waitLoop fetch waitStates terminalState maxRetries (i + 1) (sleeps + 1) fuel
      else if state = terminalState then
        some (PollResult.success, sleeps)
      else
        some (PollResult.unexpected state waitStates terminalState, sleeps)
  else
    some (PollResult.retriesExceeded maxRetries terminalState, sleeps)

/-- Model of `waitForResourceToReachState` (lines 438-454), starting at iteration 0
with no sleeps performed, run with the given fuel. -/
def waitForResourceToReachState (fetch : Nat → Except String String)
    (waitStates : List String) (terminalState : String) (maxRetries : Nat)
    (fuel : Nat) : Option (PollResult × Nat) :=
  waitLoop fetch waitStates terminalState maxRetries 0 0 fuel

/-! ### Base image resolution (`CreateInstance`, lines 102-155)

Models the `display_name_search` branch of the pagination loop.  The
service's paginated, descending-creation-time listing is modelled as the
list of pages it returns (`OpcNextPage` is `some _` exactly while pages
remain); the compiled regular expression's `MatchString` is modelled as the
predicate `m`.  The service always answers a page request, so the loop is
entered at least once: theorems assume `pages ≠ []`, and the `[]` equation
is never exercised. -/

structure GoImage where
  id : String
  displayName : String
deriving DecidableEq, Repr

/-- The pagination loop of `CreateInstance` with
`BaseImageFilter.DisplayNameSearch` set (lines 119-154): per page, first
the emptiness check of line 126, then the first-match scan of lines
136-141, then the no-match check of lines 143-145, else advance to the
next page. -/
def resolveBaseImageId (m : String → Bool) : List (List GoImage) → Except String String
| [] => Except.error "base_image_filter returned no images"
| items :: rest =>
  if items.isEmpty && rest.isEmpty then
    Except.error "base_image_filter returned no images"
  else
    match items.find? (fun image => m image.displayName) with
    | some image => Except.ok image.id
    | none =>
      if rest.isEmpty then
        Except.error "no image matched display_name_search criteria"
      else
        resolveBaseImageId m rest

/-! ### Capability schema reconciliation (`UpdateImageCapabilitySchema`, lines 227-325)

The Go descriptor interface `core.ImageCapabilitySchemaDescriptor` has the
three concrete implementations the copy loop type-switches on, plus
arbitrary other implementations, modelled by `unrecognized`.  A Go map
`map[string]ImageCapabilitySchemaDescriptor` is modelled as an association
list with unique keys; the list order stands in for the map's iteration
order. -/

inductive Descriptor
| boolean (source : String) (defaultValue : Option Bool)
| enumInteger (source : String) (defaultValue : Option Int) (values : List Int)
| enumString (source : String) (defaultValue : Option String) (values : List String)
| unrecognized (payload : String)
deriving DecidableEq, Repr

/-- A capability schema's `SchemaData` map. -/
abbrev SchemaData := List (String × Descriptor)

/-- Go map read `m[k]`. -/
def lookupDesc (k : String) : SchemaData → Option Descriptor
| [] => none
| (k₀, d₀) :: rest => if k₀ = k then some d₀ else lookupDesc k rest

/-- Go map write `m[k] = v`: replace the key's entry if present, else add. -/
def mapInsert (k : String) (v : Descriptor) : SchemaData → SchemaData
| [] => [(k, v)]
| (k₀, d₀) :: rest => if k₀ = k then (k, v) :: rest else (k₀, d₀) :: mapInsert k v rest

/-- The keys of a schema map are pairwise distinct (a Go map invariant). -/
def keysNodup (m : SchemaData) : Prop := (m.map Prod.fst).Nodup

/-- The body of the copy loop, lines 262-276: a boolean descriptor is
copied with `Source: "IMAGE"` and the same `DefaultValue`; an enum
descriptor additionally gets a fresh copy of its `Values` slice
(`make` + `copy`); a value of any other dynamic type matches none of the
three type assertions, so nothing is stored for its key. -/
def copyDescriptor : Descriptor → Option Descriptor
| Descriptor.boolean _ dv => some (Descriptor.boolean "IMAGE" dv)
| Descriptor.enumInteger _ dv vs => some (Descriptor.enumInteger "IMAGE" dv vs)
| Descriptor.enumString _ dv vs => some (Descriptor.enumString "IMAGE" dv vs)
| Descriptor.unrecognized _ => none

/-- One iteration of the copy loop: store the copy of the visited entry in
`newSchemaData` when one of the three type assertions matches. -/
def copyStep (acc : SchemaData) (kv : String × Descriptor) : SchemaData :=
  match copyDescriptor kv.2 with
  | some d => mapInsert kv.1 d acc
  | none => acc

/-- The copy loop, lines 259-277: starting from an empty
`newSchemaData`, visit every key of the global schema's data and store its
copy when one of the three type assertions matches. -/
def buildNewSchemaData (globalData : SchemaData) : SchemaData :=
  globalData.foldl copyStep []

/-- The descriptor stored at `Compute.LaunchMode` by line 306. -/
def launchModeDescriptor (lm : String) : Descriptor :=
  Descriptor.enumString "IMAGE" (some lm) ["NATIVE", "EMULATED", "PARAVIRTUALIZED", "CUSTOM"]

/-- The descriptor stored at `Network.AttachmentType` by line 309. -/
def nicAttachmentDescriptor (nic : String) : Descriptor :=
  Descriptor.enumString "IMAGE" (some nic) ["E1000", "VFIO", "PARAVIRTUALIZED"]

/-- Lines 305-307: when `LaunchMode` is configured, store the
`Compute.LaunchMode` descriptor. -/
def applyLaunchModeOverride (lm : String) (data : SchemaData) : SchemaData :=
  if lm ≠ "" then mapInsert "Compute.LaunchMode" (launchModeDescriptor lm) data else data

/-- Lines 308-310: when `NicAttachmentType` is configured, store the
`Network.AttachmentType` descriptor. -/
def applyNicOverride (nic : String) (data : SchemaData) : SchemaData :=
  if nic ≠ "" then mapInsert "Network.AttachmentType" (nicAttachmentDescriptor nic) data else data

/-- The custom-override step, lines 305-310, in source order. -/
def applyOverrides (launchMode nicAttachmentType : String) (data : SchemaData) : SchemaData :=
  applyNicOverride nicAttachmentType (applyLaunchModeOverride launchMode data)

/-- One item of a `ListComputeImageCapabilitySchemas` response. -/
structure SchemaItem where
  id : String
  schemaData : SchemaData
deriving DecidableEq

/-- The fields of `Config` that `UpdateImageCapabilitySchema` reads
(besides the image id and tags, which do not affect any claim here). -/
structure Config where
  imageName : String
  launchMode : String
  nicAttachmentType : String
deriving DecidableEq

/-- Modelled environment: the remote compute service, per spec section 6.
`imageSchemas` is what `ListComputeImageCapabilitySchemas` returns for the
image at hand; `globalList` (id, current-version-name pairs) is what
`ListComputeGlobalImageCapabilitySchemas` returns; `globalVersions` backs
`GetComputeGlobalImageCapabilitySchemaVersion`.  Schema creation is
asynchronous in the service, so whether a create is already visible to the
immediately following list is environment behaviour: `createVisible`
selects it. -/
structure ServiceState where
  imageSchemas : List SchemaItem
  globalList : List (String × String)
  globalVersions : List ((String × String) × SchemaData)
  createVisible : Bool

/-- Service semantics of `GetComputeGlobalImageCapabilitySchemaVersion`. -/
def svcGetGlobalVersion (s : ServiceState) (gid gver : String) : Option SchemaData :=
  (s.globalVersions.find? (fun kv => kv.1 = (gid, gver))).map Prod.snd

/-- Service semantics of `CreateComputeImageCapabilitySchema`: when the
create is already visible, the image's schema list gains the created
record. -/
def svcCreateSchema (s : ServiceState) (data : SchemaData) : ServiceState :=
  if s.createVisible then
    { s with imageSchemas := s.imageSchemas ++ [⟨"created-schema", data⟩] }
  else s

/-- Replace the schema data of the item with the given id. -/
def replaceById (schemaId : String) (data : SchemaData) : List SchemaItem → List SchemaItem
| [] => []
| it :: rest =>
  if it.id = schemaId then { it with schemaData := data } :: rest
  else it :: replaceById schemaId data rest

/-- Service semantics of `UpdateComputeImageCapabilitySchema`. -/
def svcUpdateSchema (s : ServiceState) (schemaId : String) (data : SchemaData) : ServiceState :=
  { s with imageSchemas := replaceById schemaId data s.imageSchemas }

/-- How many times the run issued each remote call. -/
structure CallCounts where
  listImageSchemas : Nat
  listGlobalSchemas : Nat
  getGlobalVersion : Nat
  createSchema : Nat
  updateSchema : Nat
deriving DecidableEq, Repr

/-- Result of a run of `UpdateImageCapabilitySchema`.  `indexOutOfRange`
models the Go runtime panic raised by `schema.Items[0]` on an empty item
list; `ok` carries the schema data sent in (and echoed by) the final
update call. -/
inductive RunOutcome
| ok (respData : SchemaData)
| err (msg : String)
| indexOutOfRange
deriving DecidableEq

/-- Lines 304-324: the custom-override and update step.  Both the map
writes of lines 306/309 and the update request of line 314 access
`schema.Items[0]`, which panics when the item list is empty. -/
def overrideAndUpdate (cfg : Config) (s : ServiceState) (items : List SchemaItem)
    (calls : CallCounts) : RunOutcome × ServiceState × CallCounts :=
  match items with
  | [] => (RunOutcome.indexOutOfRange, s, calls)
  | it :: _ =>
    let newData := applyOverrides cfg.launchMode cfg.nicAttachmentType it.schemaData
    (RunOutcome.ok newData, svcUpdateSchema s it.id newData,
      { calls with updateSchema := calls.updateSchema + 1 })

/-- Model of `UpdateImageCapabilitySchema` (lines 227-325) against the modelled
service.  Lines 230-235 list the image's schemas; when none exist
(lines 238-302) the global schema list is fetched (empty list: the
`unable to find any global schemas` error), its first entry's current
version is fetched, the descriptor set is copied by `buildNewSchemaData`,
a schema is created for the image from the copy, and the image's schema
list is fetched again; then lines 304-324 apply the configured overrides
to `Items[0]` and persist it via the update call. -/
def UpdateImageCapabilitySchema (cfg : Config) (s : ServiceState) :
    RunOutcome × ServiceState × CallCounts :=
  let items := s.imageSchemas
  if items.length < 1 then
    match s.globalList with
    | [] =>
      (RunOutcome.err "unable to find any global schemas", s,
        ⟨1, 1, 0, 0, 0⟩)
    | (gid, gver) :: _ =>
      match svcGetGlobalVersion s gid gver with
      | none =>
        (RunOutcome.err "global schema version not found", s,
          ⟨1, 1, 1, 0, 0⟩)
      | some globalData =>
        let newSchemaData := buildNewSchemaData globalData
        let s1 := svcCreateSchema s newSchemaData
        overrideAndUpdate cfg s1 s1.imageSchemas ⟨2, 1, 1, 1, 0⟩
  else
    overrideAndUpdate cfg s items ⟨1, 0, 0, 0, 0⟩

/-! ### Backing-storage model for the enum-values copy

Aliasing is a property of Go slice headers sharing a backing array, so the
`destArr := make([]string, len(v.Values)); copy(destArr, v.Values)` idiom
of lines 266-267 and 272-273 is additionally modelled against an explicit
store of backing arrays: a slice value is an index into the store, reads
and element writes go through the store, and the idiom allocates a fresh
array holding the same contents.  The isolation claim is then a statement
about writes through the copied reference. -/

structure SliceStore where
  arrays : List (List String)

/-- The contents a slice reference designates. -/
def readSlice (st : SliceStore) (r : Nat) : List String :=
  (st.arrays.get? r).getD []

/-- Allocate a fresh backing array with the given contents, returning its
reference. -/
def allocSlice (st : SliceStore) (contents : List String) : SliceStore × Nat :=
  ({ arrays := st.arrays ++ [contents] }, st.arrays.length)

/-- Model of `destArr := make([]string, len(src)); copy(destArr, src)`: a fresh
array with the source's contents. -/
def goCopySlice (st : SliceStore) (src : Nat) : SliceStore × Nat :=
  allocSlice st (readSlice st src)

/-- Model of `arr[i] = x` through reference `r`: mutate the backing array in
place. -/
def writeSliceElem (st : SliceStore) (r i : Nat) (x : String) : SliceStore :=
  { arrays := st.arrays.set r ((readSlice st r).set i x) }

/-! ## Map lemmas -/

theorem lookup_mapInsert_self (k : String) (v : Descriptor) (m : SchemaData) :
    lookupDesc k (mapInsert k v m) = some v := by
  induction m with
  | nil => simp [mapInsert, lookupDesc]
  | cons kv rest ih =>
    obtain ⟨k₀, d₀⟩ := kv
    by_cases h : k₀ = k
    · simp [mapInsert, h, lookupDesc]
    · simp [mapInsert, h, lookupDesc, ih]

theorem lookup_mapInsert_ne (k' k : String) (v : Descriptor) (m : SchemaData)
    (h : k' ≠ k) : lookupDesc k (mapInsert k' v m) = lookupDesc k m := by
  induction m with
  | nil => simp [mapInsert, lookupDesc, h]
  | cons kv rest ih =>
    obtain ⟨k₀, d₀⟩ := kv
    unfold mapInsert
    by_cases h₀ : k₀ = k'
    · rw [if_pos h₀]
      subst h₀
      simp [lookupDesc, h]
    · rw [if_neg h₀]
      by_cases h₁ : k₀ = k
      · simp [lookupDesc, h₁]
      · simp [lookupDesc, h₁, ih]

theorem mapInsert_of_lookup_eq (k : String) (v : Descriptor) (m : SchemaData)
    (h : lookupDesc k m = some v) : mapInsert k v m = m := by
  induction m with
  | nil => simp [lookupDesc] at h
  | cons kv rest ih =>
    obtain ⟨k₀, d₀⟩ := kv
    by_cases h₀ : k₀ = k
    · subst h₀
      simp [lookupDesc] at h
      simp [mapInsert, h]
    · simp [lookupDesc, h₀] at h
      simp [mapInsert, h₀, ih h]

theorem lookup_foldl_copyStep_of_not_mem (g : SchemaData) (acc : SchemaData)
    (k : String) (h : k ∉ g.map Prod.fst) :
    lookupDesc k (g.foldl copyStep acc) = lookupDesc k acc := by
  induction g generalizing acc with
  | nil => rfl
  | cons kv rest ih =>
    obtain ⟨k₀, d₀⟩ := kv
    simp only [List.map_cons, List.mem_cons, not_or] at h
    obtain ⟨hne, hrest⟩ := h
    rw [List.foldl_cons, ih _ hrest]
    unfold copyStep
    cases copyDescriptor d₀ with
    | none => rfl
    | some d => exact lookup_mapInsert_ne k₀ k d acc (fun he => hne he.symm)

theorem lookup_foldl_copyStep (g : SchemaData) (acc : SchemaData) (k : String)
    (d : Descriptor) (hnd : (g.map Prod.fst).Nodup) (hmem : (k, d) ∈ g) :
    lookupDesc k (g.foldl copyStep acc) =
      match copyDescriptor d with
      | some d₂ => some d₂
      | none => lookupDesc k acc := by
  induction g generalizing acc with
  | nil => cases hmem
  | cons kv rest ih =>
    obtain ⟨k₀, d₀⟩ := kv
    simp only [List.map_cons, List.nodup_cons] at hnd
    obtain ⟨hk₀, hndrest⟩ := hnd
    rcases List.mem_cons.mp hmem with heq | hmemrest
    · injection heq with h1 h2
      subst h1
      subst h2
      rw [List.foldl_cons, lookup_foldl_copyStep_of_not_mem rest _ k hk₀]
      unfold copyStep
      cases hcd : copyDescriptor d with
      | none => simp [hcd]
      | some d₂ => simp [hcd, lookup_mapInsert_self k d₂ acc]
    · have hmemk : k ∈ rest.map Prod.fst := List.mem_map_of_mem Prod.fst hmemrest
      have hkne : k₀ ≠ k := by
        intro he
        rw [he] at hk₀
        exact hk₀ hmemk
      rw [List.foldl_cons, ih _ hndrest hmemrest]
      have hacc : lookupDesc k (copyStep acc (k₀, d₀)) = lookupDesc k acc := by
        unfold copyStep
        cases hcd : copyDescriptor d₀ with
        | none => rfl
        | some d₂ => exact lookup_mapInsert_ne k₀ k d₂ acc hkne
      rw [hacc]

/-- Every key of the global schema maps in the copied schema to the copy
of its descriptor (and is absent when its variant is unrecognized). -/
theorem lookup_buildNewSchemaData (g : SchemaData) (k : String) (d : Descriptor)
    (hnd : keysNodup g) (hmem : (k, d) ∈ g) :
    lookupDesc k (buildNewSchemaData g) = copyDescriptor d := by
  unfold buildNewSchemaData
  rw [lookup_foldl_copyStep g [] k d hnd hmem]
  cases copyDescriptor d with
  | none => rfl
  | some d₂ => rfl

theorem lookup_applyLaunchModeOverride_ne (lm k : String) (d : SchemaData)
    (h : k ≠ "Compute.LaunchMode") :
    lookupDesc k (applyLaunchModeOverride lm d) = lookupDesc k d := by
  unfold applyLaunchModeOverride
  split
  · exact lookup_mapInsert_ne _ _ _ _ (Ne.symm h)
  · rfl

theorem lookup_applyNicOverride_ne (nic k : String) (d : SchemaData)
    (h : k ≠ "Network.AttachmentType") :
    lookupDesc k (applyNicOverride nic d) = lookupDesc k d := by
  unfold applyNicOverride
  split
  · exact lookup_mapInsert_ne _ _ _ _ (Ne.symm h)
  · rfl

/-- Overrides touch only the `Compute.LaunchMode` and
`Network.AttachmentType` keys. -/
theorem lookup_applyOverrides_ne (lm nic k : String) (d : SchemaData)
    (h1 : k ≠ "Compute.LaunchMode") (h2 : k ≠ "Network.AttachmentType") :
    lookupDesc k (applyOverrides lm nic d) = lookupDesc k d := by
  unfold applyOverrides
  rw [lookup_applyNicOverride_ne _ _ _ h2, lookup_applyLaunchModeOverride_ne _ _ _ h1]

theorem applyNicOverride_idem (nic : String) (d : SchemaData) :
    applyNicOverride nic (applyNicOverride nic d) = applyNicOverride nic d := by
  by_cases hn : nic = ""
  · simp [applyNicOverride, hn]
  · have hn' : nic ≠ "" := hn
    simp only [applyNicOverride, if_pos hn']
    exact mapInsert_of_lookup_eq _ _ _ (lookup_mapInsert_self _ _ _)

/-- The override step is idempotent. -/
theorem applyOverrides_idem (lm nic : String) (d : SchemaData) :
    applyOverrides lm nic (applyOverrides lm nic d) = applyOverrides lm nic d := by
  unfold applyOverrides
  have hl : applyLaunchModeOverride lm
      (applyNicOverride nic (applyLaunchModeOverride lm d)) =
      applyNicOverride nic (applyLaunchModeOverride lm d) := by
    by_cases hlm : lm = ""
    · simp [applyLaunchModeOverride, hlm]
    · have hlm' : lm ≠ "" := hlm
      simp only [applyLaunchModeOverride, if_pos hlm']
      apply mapInsert_of_lookup_eq
      rw [lookup_applyNicOverride_ne _ _ _ (by decide)]
      exact lookup_mapInsert_self _ _ _
  rw [hl]
  exact applyNicOverride_idem nic _

/-! ## Theorems -/

/-- C6: the backoff policy marks an error retryable if and only if it is a
classifiable service error whose HTTP status code is 429, 500 or 503;
every other error (any other status code, a non-service error, or no
error value at all) is decided non-retryable. -/
theorem c6_should_retry_iff (e : Option OCIErr) :
    ShouldRetryOperation e = true ↔
      (e = some (OCIErr.service 429) ∨ e = some (OCIErr.service 500) ∨
        e = some (OCIErr.service 503)) := by
  rcases e with _ | err
  · simp [ShouldRetryOperation]
  · rcases err with c | _ <;> simp [ShouldRetryOperation, or_assoc]

/-- C5 fails as stated: at attempt number 34 (with zero jitter) the int64
multiplication `time.Duration(2^34) * time.Second` overflows and the
computed delay wraps to a negative value, which does not lie in
[2^34, 2^34 + 2) seconds. -/
theorem c5_delay_counterexample :
    ¬ ((2 : Int) ^ 34 * 1000000000 ≤ NextDuration 34 0 ∧
        NextDuration 34 0 < 2 ^ 34 * 1000000000 + 2 * 1000000000) := by
  decide

/-- The function `wrap64` is the identity on the signed 64-bit range. -/
theorem wrap64_eq_self (z : Int) (h1 : -(2 ^ 63) ≤ z) (h2 : z < 2 ^ 63) :
    wrap64 z = z := by
  unfold wrap64
  have h0 : (0 : Int) ≤ z + 2 ^ 63 := by omega
  have hlt : z + 2 ^ 63 < 2 ^ 64 := by omega
  rw [Int.emod_eq_of_lt h0 hlt]
  omega

/-- C5 amended: for every attempt number n ≤ 33 (the range in which the
nanosecond product fits in int64 — deployed attempt numbers stay below 10
by the policy's attempt ceiling) and every jitter draw, the computed delay
lies in the half-open interval [2^n, 2^n + 2) seconds. -/
theorem c5_delay_in_range (n jms : Nat) (hn : n ≤ 33) (hj : jms < 2000) :
    (2 : Int) ^ n * 1000000000 ≤ NextDuration n jms ∧
      NextDuration n jms < 2 ^ n * 1000000000 + 2 * 1000000000 := by
  have hp0 : (0 : Int) < 2 ^ n := pow_pos (by norm_num) n
  have hple : (2 : Int) ^ n ≤ 2 ^ 33 := pow_le_pow_right₀ (by norm_num) hn
  have h33 : (2 : Int) ^ 33 = 8589934592 := by norm_num
  rw [h33] at hple
  have hjle : (jms : Int) < 2000 := by exact_mod_cast hj
  have hj0 : (0 : Int) ≤ (jms : Int) := Int.natCast_nonneg jms
  have hd : wrap64 ((2 : Int) ^ n * 1000000000) = (2 : Int) ^ n * 1000000000 :=
    wrap64_eq_self _ (by omega) (by omega)
  simp only [NextDuration]
  rw [hd, wrap64_eq_self _ (by omega) (by omega)]
  constructor <;> omega

/-- Witness for `c5_delay_in_range` at n = 0, jitter 0. -/
theorem c5_delay_in_range_witness :
    (2 : Int) ^ 0 * 1000000000 ≤ NextDuration 0 0 ∧
      NextDuration 0 0 < 2 ^ 0 * 1000000000 + 2 * 1000000000 :=
  c5_delay_in_range 0 0 (by decide) (by decide)

/-- C1 fails as stated: the first capability-schema call
(`ListComputeImageCapabilitySchemas`, line 230) does not set
`RequestMetadata`, so it is not executed under the shared retry policy. -/
theorem c1_retry_policy_counterexample :
    ¬ ∀ c : CallSite, carriesRetryPolicy c = true := by
  intro h
  exact absurd (h CallSite.listImageSchemasInitial) (by decide)

/-- C1 amended: a call site carries the shared retry policy exactly when
it is not one of the six capability-schema list/get/create/update calls;
those six (lines 230, 240, 251, 289, 295, 313) all omit `RequestMetadata`
and bypass the retry policy. -/
theorem c1_retry_policy_amended (c : CallSite) :
    carriesRetryPolicy c = !(isCapabilitySchemaCall c) := by
  cases c <;> rfl

/-- C8 fails as stated: `LaunchInstance` (line 194) receives
`context.TODO()`, not the caller's context. -/
theorem c8_context_counterexample :
    contextArg CallSite.launchInstance ≠ CtxArg.caller := by
  decide

/-- C8 amended: the caller's context reaches every remote call except
`LaunchInstance` (which gets a fresh TODO context) and the five
capability-schema list/get/create calls (which get fresh background
contexts); the schema update call does use the caller's context; and the
poll sleep is a plain `time.Sleep` that no cancellation can interrupt. -/
theorem c8_context_amended :
    pollSleepIsContextAware = false ∧
    contextArg CallSite.launchInstance = CtxArg.todo ∧
    contextArg CallSite.listImageSchemasInitial = CtxArg.background ∧
    contextArg CallSite.listGlobalSchemas = CtxArg.background ∧
    contextArg CallSite.getGlobalSchemaVersion = CtxArg.background ∧
    contextArg CallSite.createImageSchema = CtxArg.background ∧
    contextArg CallSite.listImageSchemasAfterCreate = CtxArg.background ∧
    contextArg CallSite.listImages = CtxArg.caller ∧
    contextArg CallSite.createImage = CtxArg.caller ∧
    contextArg CallSite.updateImageSchema = CtxArg.caller ∧
    contextArg CallSite.deleteImage = CtxArg.caller ∧
    contextArg CallSite.listVnicAttachments = CtxArg.caller ∧
    contextArg CallSite.getVnic = CtxArg.caller ∧
    contextArg CallSite.getWindowsCredentials = CtxArg.caller ∧
    contextArg CallSite.terminateInstance = CtxArg.caller ∧
    contextArg CallSite.getImage = CtxArg.caller ∧
    contextArg CallSite.getInstance = CtxArg.caller := by
  decide

/-- C2: one active iteration of the poll loop behaves as specified: a
fetched state in the waiting set performs one sleep and loops; a fetch of
the terminal state (when not also a waiting state) returns success with no
further sleep; any other fetched state returns, with no further sleep, an
unexpected-state failure carrying the observed state, the waiting set and
the terminal state; and a fetch error is returned immediately as the
poll's result. -/
theorem c2_poll_iteration (fetch : Nat → Except String String)
    (waitStates : List String) (terminalState : String)
    (maxRetries i sleeps fuel : Nat)
    (hactive : maxRetries = 0 ∨ i < maxRetries) :
    (∀ st, fetch i = Except.ok st → stringSliceContains waitStates st = true →
        waitLoop fetch waitStates terminalState maxRetries i sleeps (fuel + 1) =
          waitLoop fetch waitStates terminalState maxRetries (i + 1) (sleeps + 1) fuel) ∧
    (fetch i = Except.ok terminalState →
        stringSliceContains waitStates terminalState = false →
        waitLoop fetch waitStates terminalState maxRetries i sleeps (fuel + 1) =
          some (PollResult.success, sleeps)) ∧
    (∀ st, fetch i = Except.ok st → stringSliceContains waitStates st = false →
        st ≠ terminalState →
        waitLoop fetch waitStates terminalState maxRetries i sleeps (fuel + 1) =
          some (PollResult.unexpected st waitStates terminalState, sleeps)) ∧
    (∀ e, fetch i = Except.error e →
        waitLoop fetch waitStates terminalState maxRetries i sleeps (fuel + 1) =
          some (PollResult.fetchError e, sleeps)) := by
  refine ⟨?_, ?_, ?_, ?_⟩
  · intro st hf hw
    rw [waitLoop, if_pos hactive, hf]
    simp [hw]
  · intro hf hw
    rw [waitLoop, if_pos hactive, hf]
    simp [hw]
  · intro st hf hw hne
    rw [waitLoop, if_pos hactive, hf]
    simp [hw, hne]
  · intro e hf
    rw [waitLoop, if_pos hactive, hf]

/-- Witness for `c2_poll_iteration`: the unexpected-state branch at a
concrete fetch, with no sleep performed. -/
theorem c2_poll_iteration_witness :
    waitLoop (fun _ => Except.ok "TERMINATED") ["PROVISIONING"] "AVAILABLE" 0 0 0 1 =
      some (PollResult.unexpected "TERMINATED" ["PROVISIONING"] "AVAILABLE", 0) :=
  (c2_poll_iteration (fun _ => Except.ok "TERMINATED") ["PROVISIONING"] "AVAILABLE"
      0 0 0 0 (Or.inl rfl)).2.2.1 "TERMINATED" rfl (by decide) (by decide)

/-- C4: every recognized-variant descriptor of the fetched global schema
is placed in the new image schema under its key with its source tag
rewritten to IMAGE and its default value (and enum allowed-values
sequence) preserved; and the `make`+`copy` idiom used for enum values
allocates a fresh backing array with equal contents, so an element write
through the image copy's reference leaves the global schema's array
unchanged. -/
theorem c4_global_copy :
    (∀ g k src dv, keysNodup g → (k, Descriptor.boolean src dv) ∈ g →
        lookupDesc k (buildNewSchemaData g) = some (Descriptor.boolean "IMAGE" dv)) ∧
    (∀ g k src dv vs, keysNodup g → (k, Descriptor.enumInteger src dv vs) ∈ g →
        lookupDesc k (buildNewSchemaData g) = some (Descriptor.enumInteger "IMAGE" dv vs)) ∧
    (∀ g k src dv vs, keysNodup g → (k, Descriptor.enumString src dv vs) ∈ g →
        lookupDesc k (buildNewSchemaData g) = some (Descriptor.enumString "IMAGE" dv vs)) ∧
    (∀ st src, src < st.arrays.length →
        readSlice (goCopySlice st src).1 (goCopySlice st src).2 = readSlice st src ∧
        (goCopySlice st src).2 ≠ src ∧
        ∀ i x, readSlice (writeSliceElem (goCopySlice st src).1 (goCopySlice st src).2 i x) src =
          readSlice st src) := by
  refine ⟨?_, ?_, ?_, ?_⟩
  · intro g k src dv hnd hmem
    rw [lookup_buildNewSchemaData g k (Descriptor.boolean src dv) hnd hmem]
    rfl
  · intro g k src dv vs hnd hmem
    rw [lookup_buildNewSchemaData g k (Descriptor.enumInteger src dv vs) hnd hmem]
    rfl
  · intro g k src dv vs hnd hmem
    rw [lookup_buildNewSchemaData g k (Descriptor.enumString src dv vs) hnd hmem]
    rfl
  · intro st src hsrc
    refine ⟨?_, ?_, ?_⟩
    · simp [goCopySlice, allocSlice, readSlice, List.get?_eq_getElem?,
        List.getElem?_concat_length]
    · simp only [goCopySlice, allocSlice]
      omega
    · intro i x
      simp only [goCopySlice, allocSlice, writeSliceElem, readSlice,
        List.get?_eq_getElem?]
      rw [List.getElem?_set_ne (by omega)]
      rw [List.getElem?_append, if_pos hsrc]

/-- C9: a global-schema descriptor of an unrecognized variant is silently
dropped by the copy: its key is absent from the schema data created for
the image, and the reconciliation run raises no error for it — on the
create path it still completes with an ok result whose data lacks the
key. -/
theorem c9_unrecognized_dropped :
    (∀ g k p, keysNodup g → (k, Descriptor.unrecognized p) ∈ g →
        lookupDesc k (buildNewSchemaData g) = none) ∧
    (∀ cfg s gid gver grest g k p,
        s.imageSchemas = [] →
        s.globalList = (gid, gver) :: grest →
        svcGetGlobalVersion s gid gver = some g →
        s.createVisible = true →
        keysNodup g → (k, Descriptor.unrecognized p) ∈ g →
        k ≠ "Compute.LaunchMode" → k ≠ "Network.AttachmentType" →
        (UpdateImageCapabilitySchema cfg s).1 =
          RunOutcome.ok (applyOverrides cfg.launchMode cfg.nicAttachmentType
            (buildNewSchemaData g)) ∧
        lookupDesc k (applyOverrides cfg.launchMode cfg.nicAttachmentType
          (buildNewSchemaData g)) = none) := by
  constructor
  · intro g k p hnd hmem
    rw [lookup_buildNewSchemaData g k (Descriptor.unrecognized p) hnd hmem]
    rfl
  · intro cfg s gid gver grest g k p himg hgl hget hvis hnd hmem hk1 hk2
    constructor
    · simp [UpdateImageCapabilitySchema, himg, hgl, hget, svcCreateSchema, hvis,
        overrideAndUpdate]
    · rw [lookup_applyOverrides_ne _ _ _ _ hk1 hk2,
        lookup_buildNewSchemaData g k (Descriptor.unrecognized p) hnd hmem]
      rfl

/-- Witness for `c9_unrecognized_dropped` on a concrete service state with
a single unrecognized global descriptor. -/
theorem c9_unrecognized_dropped_witness :
    (UpdateImageCapabilitySchema ⟨"img", "", ""⟩
        ⟨[], [("gid", "v1")], [(("gid", "v1"), [("cap", Descriptor.unrecognized "blob")])],
          true⟩).1 =
      RunOutcome.ok (applyOverrides "" ""
        (buildNewSchemaData [("cap", Descriptor.unrecognized "blob")])) ∧
    lookupDesc "cap" (applyOverrides "" ""
      (buildNewSchemaData [("cap", Descriptor.unrecognized "blob")])) = none :=
  c9_unrecognized_dropped.2 ⟨"img", "", ""⟩
    ⟨[], [("gid", "v1")], [(("gid", "v1"), [("cap", Descriptor.unrecognized "blob")])], true⟩
    "gid" "v1" [] [("cap", Descriptor.unrecognized "blob")] "cap" "blob"
    rfl rfl rfl rfl (by simp [keysNodup]) (by simp) (by decide) (by decide)

/-- Witness for `c4_global_copy`: a concrete enum-string descriptor is
retagged with preserved contents, and a write through the copied slice
leaves the source array unchanged. -/
theorem c4_global_copy_witness :
    lookupDesc "cap"
        (buildNewSchemaData [("cap", Descriptor.enumString "GLOBAL" (some "A") ["A", "B"])]) =
      some (Descriptor.enumString "IMAGE" (some "A") ["A", "B"]) ∧
    readSlice (writeSliceElem (goCopySlice ⟨[["A", "B"]]⟩ 0).1
        (goCopySlice ⟨[["A", "B"]]⟩ 0).2 0 "Z") 0 = readSlice ⟨[["A", "B"]]⟩ 0 :=
  ⟨c4_global_copy.2.2.1 [("cap", Descriptor.enumString "GLOBAL" (some "A") ["A", "B"])]
      "cap" "GLOBAL" (some "A") ["A", "B"] (by simp [keysNodup]) (by simp),
    (c4_global_copy.2.2.2 ⟨[["A", "B"]]⟩ 0 (by decide)).2.2 0 "Z"⟩

/-- C3: on an image that already has at least one schema, a
reconciliation run fetches no global schema and creates no schema, and a
second run with the same configuration returns the same result and leaves
the image's schema data byte-for-byte as the first run left it. -/
theorem c3_reconcile_idempotent (cfg : Config) (s : ServiceState)
    (h : s.imageSchemas ≠ []) :
    (UpdateImageCapabilitySchema cfg s).2.2.listGlobalSchemas = 0 ∧
    (UpdateImageCapabilitySchema cfg s).2.2.createSchema = 0 ∧
    (UpdateImageCapabilitySchema cfg (UpdateImageCapabilitySchema cfg s).2.1).2.2.listGlobalSchemas = 0 ∧
    (UpdateImageCapabilitySchema cfg (UpdateImageCapabilitySchema cfg s).2.1).1 =
      (UpdateImageCapabilitySchema cfg s).1 ∧
    (UpdateImageCapabilitySchema cfg (UpdateImageCapabilitySchema cfg s).2.1).2.1.imageSchemas =
      (UpdateImageCapabilitySchema cfg s).2.1.imageSchemas := by
  rcases hs : s.imageSchemas with _ | ⟨it, rest⟩
  · exact absurd hs h
  · have hrun1 : UpdateImageCapabilitySchema cfg s =
        (RunOutcome.ok (applyOverrides cfg.launchMode cfg.nicAttachmentType it.schemaData),
          svcUpdateSchema s it.id
            (applyOverrides cfg.launchMode cfg.nicAttachmentType it.schemaData),
          ⟨1, 0, 0, 0, 1⟩) := by
      simp [UpdateImageCapabilitySchema, hs, overrideAndUpdate]
    have hs1 : (svcUpdateSchema s it.id
        (applyOverrides cfg.launchMode cfg.nicAttachmentType it.schemaData)).imageSchemas =
        SchemaItem.mk it.id
          (applyOverrides cfg.launchMode cfg.nicAttachmentType it.schemaData) :: rest := by
      simp [svcUpdateSchema, hs, replaceById]
    have hrun2 : UpdateImageCapabilitySchema cfg
        (svcUpdateSchema s it.id
          (applyOverrides cfg.launchMode cfg.nicAttachmentType it.schemaData)) =
        (RunOutcome.ok (applyOverrides cfg.launchMode cfg.nicAttachmentType it.schemaData),
          svcUpdateSchema
            (svcUpdateSchema s it.id
              (applyOverrides cfg.launchMode cfg.nicAttachmentType it.schemaData))
            it.id (applyOverrides cfg.launchMode cfg.nicAttachmentType it.schemaData),
          ⟨1, 0, 0, 0, 1⟩) := by
      simp [UpdateImageCapabilitySchema, hs1, overrideAndUpdate, applyOverrides_idem]
    have hs2 : (svcUpdateSchema
        (svcUpdateSchema s it.id
          (applyOverrides cfg.launchMode cfg.nicAttachmentType it.schemaData))
        it.id (applyOverrides cfg.launchMode cfg.nicAttachmentType it.schemaData)).imageSchemas =
        SchemaItem.mk it.id
          (applyOverrides cfg.launchMode cfg.nicAttachmentType it.schemaData) :: rest := by
      conv_lhs => rw [svcUpdateSchema]
      rw [hs1]
      simp [replaceById]
    rw [hrun1]
    refine ⟨rfl, rfl, ?_, ?_, ?_⟩ <;> simp only [hrun2]
    rw [hs2, hs1]

/-- A concrete service state whose image already has one schema, used as a
witness input. -/
def sampleServiceWithSchema : ServiceState :=
  ⟨[⟨"sid", [("cap", Descriptor.boolean "IMAGE" (some true))]⟩], [], [], true⟩

/-- Witness for `c3_reconcile_idempotent` on a concrete service state. -/
theorem c3_reconcile_idempotent_witness :
    (UpdateImageCapabilitySchema ⟨"img", "NATIVE", ""⟩ sampleServiceWithSchema).2.2.listGlobalSchemas = 0 ∧
    (UpdateImageCapabilitySchema ⟨"img", "NATIVE", ""⟩ sampleServiceWithSchema).2.2.createSchema = 0 ∧
    (UpdateImageCapabilitySchema ⟨"img", "NATIVE", ""⟩
      (UpdateImageCapabilitySchema ⟨"img", "NATIVE", ""⟩ sampleServiceWithSchema).2.1).2.2.listGlobalSchemas = 0 ∧
    (UpdateImageCapabilitySchema ⟨"img", "NATIVE", ""⟩
      (UpdateImageCapabilitySchema ⟨"img", "NATIVE", ""⟩ sampleServiceWithSchema).2.1).1 =
      (UpdateImageCapabilitySchema ⟨"img", "NATIVE", ""⟩ sampleServiceWithSchema).1 ∧
    (UpdateImageCapabilitySchema ⟨"img", "NATIVE", ""⟩
      (UpdateImageCapabilitySchema ⟨"img", "NATIVE", ""⟩ sampleServiceWithSchema).2.1).2.1.imageSchemas =
      (UpdateImageCapabilitySchema ⟨"img", "NATIVE", ""⟩ sampleServiceWithSchema).2.1.imageSchemas :=
  c3_reconcile_idempotent ⟨"img", "NATIVE", ""⟩ sampleServiceWithSchema (by decide)

/-- C10 fails as stated: when the image has no schema and the service has
not yet made the created schema visible to the re-fetch (creation is
asynchronous), the re-fetched item list is empty and the unchecked
`schema.Items[0]` access panics (index out of range) instead of returning
an error value. -/
theorem c10_index_counterexample :
    (UpdateImageCapabilitySchema ⟨"img", "", ""⟩
        ⟨[], [("gid", "v1")],
          [(("gid", "v1"), [("cap", Descriptor.boolean "GLOBAL" (some true))])],
          false⟩).1 =
      RunOutcome.indexOutOfRange := by
  decide

/-- C10 amended: the index-0 accesses are in bounds — on the path where a
schema already existed, and on the create path provided the service has
made the created schema visible to the re-fetch; only a create that is
not yet visible leaves the list empty and panics. -/
theorem c10_index_in_bounds (cfg : Config) (s : ServiceState)
    (h : s.imageSchemas ≠ [] ∨ s.createVisible = true) :
    (UpdateImageCapabilitySchema cfg s).1 ≠ RunOutcome.indexOutOfRange := by
  rcases hs : s.imageSchemas with _ | ⟨it, rest⟩
  · have hvis : s.createVisible = true := by
      rcases h with h | h
      · exact absurd hs h
      · exact h
    rcases hgl : s.globalList with _ | ⟨⟨gid, gver⟩, grest⟩
    · simp [UpdateImageCapabilitySchema, hs, hgl]
    · rcases hget : svcGetGlobalVersion s gid gver with _ | g
      · simp [UpdateImageCapabilitySchema, hs, hgl, hget]
      · simp [UpdateImageCapabilitySchema, hs, hgl, hget, svcCreateSchema, hvis,
          overrideAndUpdate]
  · simp [UpdateImageCapabilitySchema, hs, overrideAndUpdate]

/-- A concrete service state with no image schema but a visible create,
used as a witness input. -/
def sampleServiceCreateVisible : ServiceState :=
  ⟨[], [("gid", "v1")], [(("gid", "v1"), [("cap", Descriptor.boolean "GLOBAL" (some true))])],
    true⟩

/-- Witness for `c10_index_in_bounds` on a concrete service state. -/
theorem c10_index_in_bounds_witness :
    (UpdateImageCapabilitySchema ⟨"img", "", ""⟩ sampleServiceCreateVisible).1 ≠
      RunOutcome.indexOutOfRange :=
  c10_index_in_bounds ⟨"img", "", ""⟩ sampleServiceCreateVisible (Or.inr rfl)

/-- C7: with a display-name predicate over the paginated
descending-creation-time listing, resolution returns the id of the first
matching image across all pages in order (so a match found only on a
later page is returned), and returns a descriptive error when no image on
any page matches (in particular when the listing yields no images at
all). -/
theorem c7_display_name_resolution (m : String → Bool) (pages : List (List GoImage))
    (h : pages ≠ []) :
    (∀ im, pages.flatten.find? (fun image => m image.displayName) = some im →
        resolveBaseImageId m pages = Except.ok im.id) ∧
    (pages.flatten.find? (fun image => m image.displayName) = none →
        ∃ e, resolveBaseImageId m pages = Except.error e) := by
  induction pages with
  | nil => exact absurd rfl h
  | cons p rest ih =>
    constructor
    · intro im hfind
      rw [List.flatten_cons, List.find?_append] at hfind
      unfold resolveBaseImageId
      cases hp : p.find? (fun image => m image.displayName) with
      | some im₂ =>
        rw [hp] at hfind
        have him : im₂ = im := by
          simpa using hfind
        have hpne : p.isEmpty = false := by
          cases p
          · simp [List.find?] at hp
          · rfl
        rw [hpne]
        simp only [Bool.false_and, Bool.false_eq_true, if_false, hp]
        rw [him]
      | none =>
        rw [hp, Option.none_or] at hfind
        have hrne : rest ≠ [] := by
          rintro rfl
          simp at hfind
        have hre : rest.isEmpty = false := by
          cases rest
          · exact absurd rfl hrne
          · rfl
        rw [hre]
        simp only [Bool.and_false, Bool.false_eq_true, if_false, hp]
        exact (ih hrne).1 im hfind
    · intro hfind
      rw [List.flatten_cons, List.find?_append, Option.or_eq_none] at hfind
      obtain ⟨hp, hrest⟩ := hfind
      unfold resolveBaseImageId
      by_cases hrne : rest = []
      · subst hrne
        by_cases hpe : p = []
        · subst hpe
          exact ⟨_, rfl⟩
        · have hpne : p.isEmpty = false := by
            cases p
            · exact absurd rfl hpe
            · rfl
          rw [hpne]
          simp only [Bool.false_and, Bool.false_eq_true, if_false, hp]
          exact ⟨_, rfl⟩
      · have hre : rest.isEmpty = false := by
          cases rest
          · exact absurd rfl hrne
          · rfl
        rw [hre]
        simp only [Bool.and_false, Bool.false_eq_true, if_false, hp]
        exact (ih hrne).2 hrest

/-- Witness for `c7_display_name_resolution`: only page 2 contains a
match, and its id (not page 1's most-recent id) is returned. -/
theorem c7_display_name_resolution_witness :
    resolveBaseImageId (fun s => s == "Oracle-Linux-7.8")
      [[⟨"ocid-ubuntu", "Ubuntu-20.04"⟩], [⟨"ocid-ol78", "Oracle-Linux-7.8"⟩]] =
      Except.ok "ocid-ol78" :=
  (c7_display_name_resolution (fun s => s == "Oracle-Linux-7.8")
      [[⟨"ocid-ubuntu", "Ubuntu-20.04"⟩], [⟨"ocid-ol78", "Oracle-Linux-7.8"⟩]]
      (by simp)).1 ⟨"ocid-ol78", "Oracle-Linux-7.8"⟩ (by decide)

end PackerOCI
